import Mathlib

/-!
Verification of the task-reminder local store (`task_manager.py`) and its
cloud sync engine (`cloud_sync.py`).

The Python modules are shallowly embedded:

* Python dicts become association lists `List (String × α)` with the usual
  dict operations (`dlookup`, `dinsert` with replace-in-place-or-append
  semantics, `derase`), mirroring insertion-ordered Python dicts.
* The manager state `MState` carries the in-memory `tasks` mapping plus a
  log `diskWrites` of the full snapshots written by `_save_tasks`, so that
  "persists once" is the statement that exactly one snapshot was appended.
* `datetime.now(...)` is passed in explicitly as a `now : String` argument.
* Exceptions become `Except String` results on the cloud-sync side and
  `Option` on the deserialization side.
-/

namespace TaskApp

/-- Priority enum of `task_manager.py` (values "low", "medium", "high"). -/
inductive Priority
  | low
  | medium
  | high
deriving DecidableEq, Repr

/-- TaskStatus enum (values "pending", "in_progress", "completed", "cancelled"). -/
inductive TaskStatus
  | pending
  | in_progress
  | completed
  | cancelled
deriving DecidableEq, Repr

/-- The string `.value` of a Priority member. -/
def Priority.value : Priority → String
  | .low => "low"
  | .medium => "medium"
  | .high => "high"

/-- The string `.value` of a TaskStatus member. -/
def TaskStatus.value : TaskStatus → String
  | .pending => "pending"
  | .in_progress => "in_progress"
  | .completed => "completed"
  | .cancelled => "cancelled"

/-- `Priority(s)` in Python: succeeds exactly on the three member values,
raises `ValueError` (here: `none`) otherwise. -/
def Priority.ofValue (s : String) : Option Priority :=
  if s = "low" then some .low
  else if s = "medium" then some .medium
  else if s = "high" then some .high
  else none

/-- `TaskStatus(s)` in Python: succeeds exactly on the four member values. -/
def TaskStatus.ofValue (s : String) : Option TaskStatus :=
  if s = "pending" then some .pending
  else if s = "in_progress" then some .in_progress
  else if s = "completed" then some .completed
  else if s = "cancelled" then some .cancelled
  else none

/-- The `Task` dataclass, after `__post_init__` has run: `created_at`,
`updated_at` and `tags` are always populated. -/
structure Task where
  id : String
  title : String
  description : Option String
  priority : Priority
  status : TaskStatus
  created_at : String
  updated_at : String
  completed_at : Option String
  tags : List String
  due_date : Option String
deriving DecidableEq, Repr

/-- The wire form produced by `Task.to_dict`: the same fields with
`priority` and `status` replaced by their string values. -/
structure TaskData where
  id : String
  title : String
  description : Option String
  priority : String
  status : String
  created_at : String
  updated_at : String
  completed_at : Option String
  tags : List String
  due_date : Option String
deriving DecidableEq, Repr

/-- `Task.to_dict`: `asdict(self)` with enum fields replaced by `.value`. -/
def Task.to_dict (t : Task) : TaskData :=
  { id := t.id
    title := t.title
    description := t.description
    priority := t.priority.value
    status := t.status.value
    created_at := t.created_at
    updated_at := t.updated_at
    completed_at := t.completed_at
    tags := t.tags
    due_date := t.due_date }

/-- `Task.from_dict`: converts the enum strings back through `Priority(...)`
and `TaskStatus(...)` (each of which can raise, modelled by `Option`) and
rebuilds the dataclass from the remaining fields unchanged. -/
def Task.from_dict (d : TaskData) : Option Task :=
  match Priority.ofValue d.priority, TaskStatus.ofValue d.status with
  | some p, some s =>
      some { id := d.id
             title := d.title
             description := d.description
             priority := p
             status := s
             created_at := d.created_at
             updated_at := d.updated_at
             completed_at := d.completed_at
             tags := d.tags
             due_date := d.due_date }
  | _, _ => none

/-- Dict lookup (`d.get(key)`). -/
def dlookup {α : Type} : List (String × α) → String → Option α
  | [], _ => none
  | (k, v) :: rest, key => if k = key then some v else dlookup rest key

/-- Dict assignment `d[key] = val`: replaces in place when the key exists,
appends otherwise (insertion-ordered Python dict). -/
def dinsert {α : Type} : List (String × α) → String → α → List (String × α)
  | [], key, val => [(key, val)]
  | (k, v) :: rest, key, val =>
      if k = key then (k, val) :: rest else (k, v) :: dinsert rest key val

/-- Dict deletion `del d[key]` (removes the unique matching entry). -/
def derase {α : Type} : List (String × α) → String → List (String × α)
  | [], _ => []
  | (k, v) :: rest, key => if k = key then rest else (k, v) :: derase rest key

/-- State of a `TaskManager`: the in-memory dict plus the log of full
snapshots written to disk by `_save_tasks`. -/
structure MState where
  tasks : List (String × Task)
  diskWrites : List (List (String × Task))
deriving DecidableEq, Repr

/-- `TaskManager._save_tasks`: dumps the whole current mapping to disk. -/
def save_tasks (st : MState) : MState :=
  { st with diskWrites := st.diskWrites ++ [st.tasks] }

/-- A fresh manager over an absent backing file: empty mapping, no writes. -/
def emptyManager : MState := { tasks := [], diskWrites := [] }

/-- `TaskManager.add_task`: assigns id `str(len(self.tasks) + 1)`, builds the
task (status pending, `created_at = updated_at = now`, `tags or []`),
stores it and persists. -/
def add_task (st : MState) (now : String) (title : String)
    (description : Option String := none) (priority : Priority := .medium)
    (tags : Option (List String) := none) (due_date : Option String := none) :
    MState × Task :=
  let task_id := Nat.repr (st.tasks.length + 1)
  let task : Task :=
    { id := task_id
      title := title
      description := description
      priority := priority
      status := .pending
      created_at := now
      updated_at := now
      completed_at := none
      tags := tags.getD []
      due_date := due_date }
  let st' := save_tasks { st with tasks := dinsert st.tasks task_id task }
  (st', task)

/-- `TaskManager.get_task`. -/
def get_task (st : MState) (task_id : String) : Option Task :=
  dlookup st.tasks task_id

/-- `TaskManager.get_all_tasks`: `list(self.tasks.values())`. -/
def get_all_tasks (st : MState) : List Task :=
  st.tasks.map Prod.snd

/-- `TaskManager.get_tasks_by_status`. -/
def get_tasks_by_status (st : MState) (status : TaskStatus) : List Task :=
  (get_all_tasks st).filter (fun t => t.status = status)

/-- `TaskManager.get_tasks_by_priority`. -/
def get_tasks_by_priority (st : MState) (priority : Priority) : List Task :=
  (get_all_tasks st).filter (fun t => t.priority = priority)

/-- The keyword arguments of `TaskManager.update_task`; `none` means the
caller did not supply the field. -/
structure UpdateArgs where
  title : Option String := none
  description : Option String := none
  priority : Option Priority := none
  status : Option TaskStatus := none
  tags : Option (List String) := none
  due_date : Option String := none
deriving DecidableEq, Repr

/-- The field mutations performed by `update_task` on the found task: each
supplied field is assigned; when `status` is being set to completed and
`completed_at` is still unset it is stamped with `now`; `updated_at` is
always refreshed. -/
def applyUpdate (t : Task) (u : UpdateArgs) (now : String) : Task :=
  { t with
    title := u.title.getD t.title
    description := match u.description with | some d => some d | none => t.description
    priority := u.priority.getD t.priority
    status := u.status.getD t.status
    completed_at :=
      if u.status = some TaskStatus.completed ∧ t.completed_at = none
      then some now else t.completed_at
    tags := u.tags.getD t.tags
    due_date := match u.due_date with | some d => some d | none => t.due_date
    updated_at := now }

/-- `TaskManager.update_task`: returns `none` without touching anything when
the id is absent; otherwise mutates the stored task in place and persists. -/
def update_task (st : MState) (task_id : String) (u : UpdateArgs)
    (now : String) : MState × Option Task :=
  match dlookup st.tasks task_id with
  | none => (st, none)
  | some t =>
      let t' := applyUpdate t u now
      let st' := save_tasks { st with tasks := dinsert st.tasks task_id t' }
      (st', some t')

/-- `TaskManager.complete_task`: `update_task(task_id, status=COMPLETED)`. -/
def complete_task (st : MState) (task_id : String) (now : String) :
    MState × Option Task :=
  update_task st task_id { status := some TaskStatus.completed } now

/-- `TaskManager.delete_task`: removes and persists when present, returns
whether the id existed. -/
def delete_task (st : MState) (task_id : String) : MState × Bool :=
  match dlookup st.tasks task_id with
  | some _ => (save_tasks { st with tasks := derase st.tasks task_id }, true)
  | none => (st, false)

/-- The record returned by `get_task_statistics`; `completion_rate` is the
exact rational value of `(completed / total) * 100`. -/
structure Statistics where
  total : Nat
  completed : Nat
  pending : Nat
  completion_rate : Rat
  by_priority : List (String × Nat)
  by_status : List (String × Nat)
deriving DecidableEq, Repr

/-- `TaskManager.get_task_statistics`: early-returns a record with empty
groupings when there are no tasks; otherwise counts by status and priority
over the enum members in declaration order. -/
def get_task_statistics (st : MState) : Statistics :=
  let total := st.tasks.length
  if total = 0 then
    { total := 0
      completed := 0
      pending := 0
      completion_rate := 0
      by_priority := []
      by_status := [] }
  else
    let completedCount := (get_tasks_by_status st .completed).length
    let pendingCount := (get_tasks_by_status st .pending).length
    { total := total
      completed := completedCount
      pending := pendingCount
      completion_rate := ((completedCount : Rat) / (total : Rat)) * 100
      by_priority :=
        [("low", (get_tasks_by_priority st .low).length),
         ("medium", (get_tasks_by_priority st .medium).length),
         ("high", (get_tasks_by_priority st .high).length)]
      by_status :=
        [("pending", (get_tasks_by_status st .pending).length),
         ("in_progress", (get_tasks_by_status st .in_progress).length),
         ("completed", (get_tasks_by_status st .completed).length),
         ("cancelled", (get_tasks_by_status st .cancelled).length)] }

/-- Python substring test `needle in hay`. -/
def strContains (hay needle : String) : Bool :=
  decide (List.IsInfix needle.toList hay.toList)

/-- The match predicate of `search_tasks`: the lowercased query occurs in
the lowercased title, or in the lowercased description when one is present,
or in some lowercased tag. -/
def taskMatches (query_lower : String) (t : Task) : Bool :=
  strContains t.title.toLower query_lower ||
  (match t.description with
   | some d => strContains d.toLower query_lower
   | none => false) ||
  t.tags.any (fun tag => strContains tag.toLower query_lower)

/-- `TaskManager.search_tasks`: lowercases the query once and collects the
matching tasks in store order. -/
def search_tasks (st : MState) (query : String) : List Task :=
  (get_all_tasks st).filter (taskMatches query.toLower)

/-- `TaskManager.export_tasks`: full dump, each task through `to_dict`. -/
def export_tasks (st : MState) : List (String × TaskData) :=
  st.tasks.map (fun p => (p.1, p.2.to_dict))

/-- The loop body of `import_tasks`: deserialize each entry, store it on
success, log and skip on failure. -/
def importLoop : List (String × Task) → List (String × TaskData) →
    List (String × Task)
  | acc, [] => acc
  | acc, (task_id, td) :: rest =>
      match Task.from_dict td with
      | some t => importLoop (dinsert acc task_id t) rest
      | none => importLoop acc rest

/-- `TaskManager.import_tasks`: runs the loop over the mapping, then
persists once at the end. -/
def import_tasks (st : MState) (tasks_data : List (String × TaskData)) :
    MState :=
  save_tasks { st with tasks := importLoop st.tasks tasks_data }

/-- Behaviour of the MongoDB client collaborator of `cloud_sync.py`.
`pingRaises`: the `admin.command(ping)` call raises (connection lost after
the client object was built). `opsRaise`: a data operation performed after a
successful connectivity check raises mid-flight. `statsRaise`: the stats
calls inside the `get_cloud_health` try-block raise. -/
structure ClientBehavior where
  pingRaises : Bool
  opsRaise : Bool
  statsRaise : Bool
deriving DecidableEq, Repr

/-- One remote document: `{task_id, user_id, data, synced_at}`, uniquely
keyed by `(task_id, user_id)`. -/
structure RemoteRecord where
  task_id : String
  user_id : String
  data : TaskData
  synced_at : String
deriving DecidableEq, Repr

/-- State of `MongoDBCloudSync`: `client` is `none` when `_connect` failed
or was never configured (`self.client = None`); `records` is the remote
collection content. -/
structure CloudState where
  client : Option ClientBehavior
  records : List RemoteRecord
deriving DecidableEq, Repr

/-- `MongoDBCloudSync.is_connected`: `self.client is not None and
self.client.admin.command(ping)`. The ping itself can raise, which
propagates to the caller of `is_connected` (modelled as `.error`). -/
def is_connected (c : CloudState) : Except String Bool :=
  match c.client with
  | none => Except.ok false
  | some b =>
      if b.pingRaises then Except.error "ServerSelectionTimeoutError: ping"
      else Except.ok true

/-- `collection.update_one({task_id, user_id}, {$set: cloud_task},
upsert=True)`: replaces the matching record or inserts a new one. -/
def upsertRecord : List RemoteRecord → String → String → TaskData → String →
    List RemoteRecord
  | [], tid, uid, td, now =>
      [{ task_id := tid, user_id := uid, data := td, synced_at := now }]
  | r :: rest, tid, uid, td, now =>
      if r.task_id = tid ∧ r.user_id = uid then
        { task_id := tid, user_id := uid, data := td, synced_at := now } :: rest
      else r :: upsertRecord rest tid uid td now

/-- `MongoDBCloudSync.sync_tasks_to_cloud`: checks connectivity first and
returns `False` when not connected; otherwise upserts every task keyed by
`(task_id, user_id)` with `synced_at = now` and returns `True`; a failure
after the connectivity check is wrapped in `CloudSyncError` and raised. -/
def sync_tasks_to_cloud (c : CloudState) (tasks_data : List (String × TaskData))
    (user_id now : String) : Except String (CloudState × Bool) :=
  match is_connected c with
  | Except.error e => Except.error e
  | Except.ok false => Except.ok (c, false)
  | Except.ok true =>
      match c.client with
      | some b =>
          if b.opsRaise then
            Except.error "CloudSyncError: Failed to sync tasks to cloud"
          else
            Except.ok
              ({ c with
                 records := tasks_data.foldl
                   (fun rs p => upsertRecord rs p.1 user_id p.2 now) c.records },
               true)
      | none => Except.ok (c, false)

/-- `MongoDBCloudSync.sync_tasks_from_cloud`: checks connectivity first and
returns an empty mapping when not connected; otherwise fetches the records
of the user and re-keys their `data` by `task_id`; a failure after the
connectivity check is wrapped in `CloudSyncError` and raised. -/
def sync_tasks_from_cloud (c : CloudState) (user_id : String) :
    Except String (List (String × TaskData)) :=
  match is_connected c with
  | Except.error e => Except.error e
  | Except.ok false => Except.ok []
  | Except.ok true =>
      match c.client with
      | some b =>
          if b.opsRaise then
            Except.error "CloudSyncError: Failed to sync tasks from cloud"
          else
            Except.ok
              ((c.records.filter (fun r => r.user_id = user_id)).map
                (fun r => (r.task_id, r.data)))
      | none => Except.ok []

/-- The structured result of `get_cloud_health` (status plus message; the
database/collection detail fields are collaborator data and not modelled). -/
structure HealthResult where
  status : String
  message : Option String
deriving DecidableEq, Repr

/-- `MongoDBCloudSync.get_cloud_health`: the initial `is_connected()` call
sits outside the try-block, so an exception raised by the ping inside it
propagates; after that, a disconnected client yields status
"disconnected", a failure inside the try-block yields status "error", and
otherwise the probe reports "connected". -/
def get_cloud_health (c : CloudState) : Except String HealthResult :=
  match is_connected c with
  | Except.error e => Except.error e
  | Except.ok false =>
      Except.ok { status := "disconnected"
                  message := some "Not connected to MongoDB Atlas" }
  | Except.ok true =>
      match c.client with
      | some b =>
          if b.statsRaise then
            Except.ok { status := "error", message := some "stats call raised" }
          else
            Except.ok { status := "connected", message := none }
      | none =>
          Except.ok { status := "disconnected"
                      message := some "Not connected to MongoDB Atlas" }

/-! Helper lemmas about the dict operations. -/

theorem dlookup_dinsert_self {α : Type} (l : List (String × α)) (k : String)
    (v : α) : dlookup (dinsert l k v) k = some v := by
  induction l with
  | nil => simp [dinsert, dlookup]
  | cons p rest ih =>
      obtain ⟨pk, pv⟩ := p
      by_cases h : pk = k
      · simp [dinsert, h, dlookup]
      · simp [dinsert, h, dlookup, ih]

theorem dlookup_dinsert_ne {α : Type} (l : List (String × α)) (k k2 : String)
    (v : α) (h : k2 ≠ k) : dlookup (dinsert l k v) k2 = dlookup l k2 := by
  induction l with
  | nil => simp [dinsert, dlookup, Ne.symm h]
  | cons p rest ih =>
      obtain ⟨pk, pv⟩ := p
      by_cases hp : pk = k
      · subst hp
        simp [dinsert, dlookup, Ne.symm h]
      · by_cases hp2 : pk = k2 <;> simp [dinsert, dlookup, hp, hp2, ih, h]

theorem dlookup_eq_none {α : Type} (l : List (String × α)) (k : String)
    (h : k ∉ l.map Prod.fst) : dlookup l k = none := by
  induction l with
  | nil => rfl
  | cons p rest ih =>
      obtain ⟨pk, pv⟩ := p
      simp only [List.map_cons, List.mem_cons] at h
      push_neg at h
      simp [dlookup, Ne.symm h.1, ih h.2]

theorem dinsert_fresh {α : Type} (l : List (String × α)) (k : String) (v : α)
    (h : dlookup l k = none) : dinsert l k v = l ++ [(k, v)] := by
  induction l with
  | nil => rfl
  | cons p rest ih =>
      obtain ⟨pk, pv⟩ := p
      by_cases hp : pk = k
      · simp [dlookup, hp] at h
      · simp only [dlookup, if_neg hp] at h
        simp [dinsert, hp, ih h]

/-! Injectivity of the decimal rendering `Nat.repr` (the Python `str(n)`),
proved through the left inverse that folds the digit characters back into
a number. -/

/-- Numeric value of a decimal digit character. -/
def charVal (c : Char) : Nat := c.toNat - 48

/-- Folds a list of decimal digit characters back into a number. -/
def decVal (l : List Char) : Nat := l.foldl (fun a c => 10 * a + charVal c) 0

theorem charVal_digitChar {d : Nat} (h : d < 10) :
    charVal (Nat.digitChar d) = d := by
  interval_cases d <;> decide

theorem toDigitsCore_append (f : Nat) : ∀ (n : Nat) (ds : List Char),
    Nat.toDigitsCore 10 f n ds = Nat.toDigitsCore 10 f n [] ++ ds := by
  induction f with
  | zero => intro n ds; simp [Nat.toDigitsCore]
  | succ f ih =>
      intro n ds
      simp only [Nat.toDigitsCore]
      by_cases h : n / 10 = 0
      · simp [h]
      · simp only [if_neg h]
        rw [ih (n / 10) (Nat.digitChar (n % 10) :: ds),
          ih (n / 10) [Nat.digitChar (n % 10)], List.append_assoc]
        rfl

theorem decVal_toDigitsCore : ∀ (f n : Nat), n < f →
    decVal (Nat.toDigitsCore 10 f n []) = n := by
  intro f
  induction f with
  | zero => intro n h; omega
  | succ f ih =>
      intro n h
      have hmod : n % 10 < 10 := Nat.mod_lt n (by norm_num)
      simp only [Nat.toDigitsCore]
      by_cases h0 : n / 10 = 0
      · have hn : n < 10 := by omega
        have hmn : n % 10 = n := Nat.mod_eq_of_lt hn
        simp [h0, decVal, hmn, charVal_digitChar hn]
      · have hpos : 0 < n := by
          rcases Nat.eq_zero_or_pos n with h1 | h1
          · exact absurd (by simp [h1]) h0
          · exact h1
        have hdiv : n / 10 < f :=
          lt_of_lt_of_le (Nat.div_lt_self hpos (by norm_num)) (Nat.lt_succ_iff.mp h)
        rw [if_neg h0, toDigitsCore_append]
        simp only [decVal, List.foldl_append] at *
        rw [ih (n / 10) hdiv]
        simp only [List.foldl_cons, List.foldl_nil, charVal_digitChar hmod]
        omega

theorem decVal_repr (n : Nat) : decVal (Nat.repr n).toList = n := by
  have hrepr : (Nat.repr n).toList = Nat.toDigitsCore 10 (n + 1) n [] := rfl
  rw [hrepr]
  exact decVal_toDigitsCore (n + 1) n (Nat.lt_succ_self n)

theorem repr_injective : Function.Injective Nat.repr := by
  intro m n h
  have hm := decVal_repr m
  rw [h, decVal_repr n] at hm
  exact hm.symm

/-! Counting lemmas for the statistics. -/

theorem count_by_status_sum (l : List Task) :
    (l.filter fun t => t.status = TaskStatus.pending).length +
    (l.filter fun t => t.status = TaskStatus.in_progress).length +
    (l.filter fun t => t.status = TaskStatus.completed).length +
    (l.filter fun t => t.status = TaskStatus.cancelled).length = l.length := by
  induction l with
  | nil => rfl
  | cons t rest ih =>
      simp only [List.filter_cons]
      cases h : t.status <;> simp [h] <;> omega

theorem count_by_priority_sum (l : List Task) :
    (l.filter fun t => t.priority = Priority.low).length +
    (l.filter fun t => t.priority = Priority.medium).length +
    (l.filter fun t => t.priority = Priority.high).length = l.length := by
  induction l with
  | nil => rfl
  | cons t rest ih =>
      simp only [List.filter_cons]
      cases h : t.priority <;> simp [h] <;> omega

/-! Concrete sample data used by the witnesses. -/

/-- A sample task as built by the manager. -/
def demoTask1 : Task := (add_task emptyManager "T0" "Buy milk").2

/-- A one-task store. -/
def demoStore1 : MState := (add_task emptyManager "T0" "Buy milk").1

/-- A two-task store (ids "1" and "2"). -/
def demoStore2 : MState := (add_task demoStore1 "T1" "Call second bank").1

/-- The two-task store after task "1" has been deleted (task "2" live). -/
def demoStore2del : MState := (delete_task demoStore2 "1").1

/-- A task whose completion timestamp is already set. -/
def completedTask : Task :=
  { demoTask1 with status := TaskStatus.completed, completed_at := some "T5" }

/-- A store holding `completedTask` under id "1". -/
def completedStore : MState := { tasks := [("1", completedTask)], diskWrites := [] }

/-- Importable data that deserializes fine and shares id "2". -/
def goodData : TaskData :=
  { id := "2", title := "Remote title", description := none, priority := "high"
    status := "in_progress", created_at := "T7", updated_at := "T8"
    completed_at := none, tags := ["remote"], due_date := none }

/-- Importable data whose priority value is invalid. -/
def badData : TaskData := { goodData with id := "9", priority := "urgent" }

/-- The task `goodData` deserializes to. -/
def importedTask : Task :=
  { id := "2", title := "Remote title", description := none
    priority := Priority.high, status := TaskStatus.in_progress
    created_at := "T7", updated_at := "T8", completed_at := none
    tags := ["remote"], due_date := none }

/-- A two-entry import batch: one good entry colliding with local id "2",
one entry that fails to deserialize. -/
def demoImportData : List (String × TaskData) := [("2", goodData), ("9", badData)]

/-- C9: deserializing the serialized form of any Task returns the same Task
field-for-field, including the enum and timestamp representations. -/
theorem c9_serialize_round_trip (t : Task) : Task.from_dict t.to_dict = some t := by
  cases t with
  | mk id title d p s ca ua coa tags dd => cases p <;> cases s <;> rfl

/-- C5: with the Remote Store disconnected (no client), pushing returns
`false` without raising and without touching the remote state, and pulling
returns the empty mapping without raising. -/
theorem c5_disconnected_sync_noop (c : CloudState)
    (tasks_data : List (String × TaskData)) (user_id now : String)
    (h : c.client = none) :
    sync_tasks_to_cloud c tasks_data user_id now = Except.ok (c, false) ∧
    sync_tasks_from_cloud c user_id = Except.ok [] := by
  constructor <;>
    simp [sync_tasks_to_cloud, sync_tasks_from_cloud, is_connected, h]

/-- Witness for C5 at a concrete disconnected state and nonempty payload. -/
theorem c5_disconnected_sync_noop_witness :
    sync_tasks_to_cloud { client := none, records := [] } [("1", goodData)]
        "u1" "T9" = Except.ok ({ client := none, records := [] }, false) ∧
    sync_tasks_from_cloud { client := none, records := [] } "u1" =
      Except.ok [] :=
  c5_disconnected_sync_noop { client := none, records := [] }
    [("1", goodData)] "u1" "T9" rfl

/-- C6 counterexample: when the client object exists but its ping raises
(connection lost after construction), `get_cloud_health` propagates the
exception instead of returning a structured result, because the
`is_connected()` call sits outside the try-block. -/
theorem c6_health_check_throws_counterexample :
    get_cloud_health
        { client := some { pingRaises := true, opsRaise := false, statsRaise := false }
          records := [] } =
      Except.error "ServerSelectionTimeoutError: ping" := rfl

/-- C6 (amended): whenever the client is unset, or it is set and its ping
does not raise, `get_cloud_health` returns a structured result whose
status is "connected", "disconnected" or "error"; only a raising ping
inside the initial connectivity check escapes. -/
theorem c6_health_check_structured (c : CloudState)
    (h : ∀ b, c.client = some b → b.pingRaises = false) :
    ∃ r, get_cloud_health c = Except.ok r ∧
      (r.status = "connected" ∨ r.status = "disconnected" ∨ r.status = "error") := by
  match hc : c.client with
  | none =>
      exact ⟨{ status := "disconnected", message := some "Not connected to MongoDB Atlas" },
        by simp [get_cloud_health, is_connected, hc], Or.inr (Or.inl rfl)⟩
  | some b =>
      have hb := h b hc
      cases hs : b.statsRaise
      · exact ⟨{ status := "connected", message := none },
          by simp [get_cloud_health, is_connected, hc, hb, hs], Or.inl rfl⟩
      · exact ⟨{ status := "error", message := some "stats call raised" },
          by simp [get_cloud_health, is_connected, hc, hb, hs],
          Or.inr (Or.inr rfl)⟩

/-- Witness for the amended C6 at a concrete healthy connected state. -/
theorem c6_health_check_structured_witness :
    ∃ r, get_cloud_health
        { client := some { pingRaises := false, opsRaise := false, statsRaise := false }
          records := [] } = Except.ok r ∧
      (r.status = "connected" ∨ r.status = "disconnected" ∨ r.status = "error") :=
  c6_health_check_structured
    { client := some { pingRaises := false, opsRaise := false, statsRaise := false }
      records := [] }
    (by intro b hb; cases hb; rfl)

/-- C10: after adding tasks "1" and "2" and deleting task "1", the next add
computes id `str(count + 1) = "2"` and silently overwrites the live task
"2": the store count does not grow and the old task "2" is lost. -/
theorem c10_add_overwrites_live_task :
    (get_task demoStore2del "2").isSome = true ∧
    (add_task demoStore2del "T2" "third").2.id = "2" ∧
    (add_task demoStore2del "T2" "third").1.tasks.length =
      demoStore2del.tasks.length ∧
    get_task (add_task demoStore2del "T2" "third").1 "2" =
      some (add_task demoStore2del "T2" "third").2 ∧
    get_task (add_task demoStore2del "T2" "third").1 "2" ≠
      get_task demoStore2del "2" := by
  refine ⟨rfl, rfl, rfl, rfl, ?_⟩
  decide

/-- C3 counterexample: on the empty store the statistics groupings are
empty mappings, so no priority or status key is present at all. -/
theorem c3_empty_groupings_counterexample :
    (get_task_statistics emptyManager).total = 0 ∧
    dlookup (get_task_statistics emptyManager).by_priority "low" = none ∧
    dlookup (get_task_statistics emptyManager).by_status "pending" = none :=
  ⟨rfl, rfl, rfl⟩

theorem get_task_statistics_ne (st : MState) (h : st.tasks.length ≠ 0) :
    get_task_statistics st =
      { total := st.tasks.length
        completed := (get_tasks_by_status st TaskStatus.completed).length
        pending := (get_tasks_by_status st TaskStatus.pending).length
        completion_rate :=
          (((get_tasks_by_status st TaskStatus.completed).length : Rat) /
            (st.tasks.length : Rat)) * 100
        by_priority :=
          [("low", (get_tasks_by_priority st Priority.low).length),
           ("medium", (get_tasks_by_priority st Priority.medium).length),
           ("high", (get_tasks_by_priority st Priority.high).length)]
        by_status :=
          [("pending", (get_tasks_by_status st TaskStatus.pending).length),
           ("in_progress", (get_tasks_by_status st TaskStatus.in_progress).length),
           ("completed", (get_tasks_by_status st TaskStatus.completed).length),
           ("cancelled", (get_tasks_by_status st TaskStatus.cancelled).length)] } := by
  simp only [get_task_statistics]
  rw [if_neg h]

/-- C3 (amended): statistics always report `total`, `completed`, `pending`
and the completion rate correctly, and the grouping sums equal `total`;
the by-priority and by-status mappings carry a count for every enum member
when the store is non-empty, but are empty mappings on the empty store. -/
theorem c3_statistics_consistent (st : MState) :
    (get_task_statistics st).total = st.tasks.length ∧
    (get_task_statistics st).completed =
      (get_tasks_by_status st TaskStatus.completed).length ∧
    (get_task_statistics st).pending =
      (get_tasks_by_status st TaskStatus.pending).length ∧
    (get_task_statistics st).completion_rate =
      (if st.tasks.length = 0 then (0 : Rat) else
        (((get_tasks_by_status st TaskStatus.completed).length : Rat) /
          (st.tasks.length : Rat)) * 100) ∧
    (st.tasks ≠ [] →
      (get_task_statistics st).by_priority =
        [("low", (get_tasks_by_priority st Priority.low).length),
         ("medium", (get_tasks_by_priority st Priority.medium).length),
         ("high", (get_tasks_by_priority st Priority.high).length)] ∧
      (get_task_statistics st).by_status =
        [("pending", (get_tasks_by_status st TaskStatus.pending).length),
         ("in_progress", (get_tasks_by_status st TaskStatus.in_progress).length),
         ("completed", (get_tasks_by_status st TaskStatus.completed).length),
         ("cancelled", (get_tasks_by_status st TaskStatus.cancelled).length)]) ∧
    (st.tasks = [] →
      (get_task_statistics st).by_priority = [] ∧
      (get_task_statistics st).by_status = []) ∧
    ((get_task_statistics st).by_status.map Prod.snd).sum =
      (get_task_statistics st).total ∧
    ((get_task_statistics st).by_priority.map Prod.snd).sum =
      (get_task_statistics st).total := by
  by_cases h : st.tasks.length = 0
  · have hnil : st.tasks = [] := List.length_eq_zero.mp h
    refine ⟨?_, ?_, ?_, ?_, ?_, ?_, ?_, ?_⟩ <;>
      simp [get_task_statistics, get_tasks_by_status, get_all_tasks, hnil]
  · have hne : st.tasks ≠ [] := fun e => h (by simp [e])
    have hsum_s := count_by_status_sum (get_all_tasks st)
    have hsum_p := count_by_priority_sum (get_all_tasks st)
    simp only [get_all_tasks, List.length_map] at hsum_s hsum_p
    simp only [get_task_statistics_ne st h]
    refine ⟨True.intro, True.intro, True.intro, ?_,
      fun hx => ⟨True.intro, True.intro⟩, fun hx => absurd hx hne, ?_, ?_⟩
    · rw [if_neg h]
    · simp only [get_tasks_by_status, get_all_tasks, List.map_cons,
        List.map_nil, List.sum_cons, List.sum_nil]
      omega
    · simp only [get_tasks_by_priority, get_all_tasks, List.map_cons,
        List.map_nil, List.sum_cons, List.sum_nil]
      omega

/-- Witness for the amended C3 at a concrete one-task store. -/
theorem c3_statistics_consistent_witness :
    demoStore1.tasks ≠ [] ∧
    (get_task_statistics demoStore1).by_priority =
      [("low", (get_tasks_by_priority demoStore1 Priority.low).length),
       ("medium", (get_tasks_by_priority demoStore1 Priority.medium).length),
       ("high", (get_tasks_by_priority demoStore1 Priority.high).length)] :=
  ⟨by decide, ((c3_statistics_consistent demoStore1).2.2.2.2.1 (by decide)).1⟩

/-- N successive `add_task` calls on an initially empty store, with no
interleaved deletions. -/
def addN : Nat → MState
  | 0 => emptyManager
  | n + 1 => (add_task (addN n) "T" "task").1

theorem addN_keys (n : Nat) :
    (addN n).tasks.map Prod.fst =
      (List.range n).map (fun i => Nat.repr (i + 1)) := by
  induction n with
  | zero => rfl
  | succ n ih =>
      have hlen : (addN n).tasks.length = n := by
        have hc := congrArg List.length ih
        simpa using hc
      have hfresh : dlookup (addN n).tasks (Nat.repr (n + 1)) = none := by
        apply dlookup_eq_none
        rw [ih]
        simp only [List.mem_map, List.mem_range, not_exists]
        rintro i ⟨hi, he⟩
        have := repr_injective he
        omega
      show ((add_task (addN n) "T" "task").1.tasks.map Prod.fst) = _
      simp only [add_task, save_tasks, hlen]
      rw [dinsert_fresh _ _ _ hfresh]
      simp [ih, List.range_succ, hlen]

/-- C2: `add` always assigns the id `str(count + 1)`; starting from an empty
store, N adds yield exactly the distinct ids "1" through "N"; and deleting
task "2" from a two-task store makes the next add assign "2" again. -/
theorem c2_sequential_id_assignment :
    (∀ (st : MState) (now title : String) (d : Option String) (p : Priority)
       (tg : Option (List String)) (dd : Option String),
       (add_task st now title d p tg dd).2.id = Nat.repr (st.tasks.length + 1)) ∧
    (∀ n : Nat,
       (addN n).tasks.map Prod.fst =
         (List.range n).map (fun i => Nat.repr (i + 1)) ∧
       ((addN n).tasks.map Prod.fst).Nodup) ∧
    (add_task (delete_task (addN 2) "2").1 "T" "task").2.id = "2" := by
  refine ⟨fun st now title d p tg dd => rfl, fun n => ⟨addN_keys n, ?_⟩,
    by decide⟩
  rw [addN_keys n]
  refine List.Nodup.map ?_ (List.nodup_range n)
  intro a b he
  exact Nat.succ_injective (repr_injective he)

theorem taskMatches_iff (q : String) (t : Task) :
    taskMatches q t = true ↔
      (strContains t.title.toLower q = true ∨
       (∃ d, t.description = some d ∧ strContains d.toLower q = true) ∨
       (∃ tag, tag ∈ t.tags ∧ strContains tag.toLower q = true)) := by
  unfold taskMatches
  cases hd : t.description <;> simp [hd, List.any_eq_true, or_assoc]

/-- C8: `search_tasks` returns exactly the stored tasks in which the
lowercased query occurs as a substring of the lowercased title, of the
lowercased description when one is present, or of some lowercased tag. -/
theorem c8_search_exact_match (st : MState) (q : String) (t : Task) :
    t ∈ search_tasks st q ↔
      t ∈ get_all_tasks st ∧
      (strContains t.title.toLower q.toLower = true ∨
       (∃ d, t.description = some d ∧ strContains d.toLower q.toLower = true) ∨
       (∃ tag, tag ∈ t.tags ∧ strContains tag.toLower q.toLower = true)) := by
  unfold search_tasks
  rw [List.mem_filter, taskMatches_iff]

/-- C4: the completion timestamp is written exactly once: any update on a
task whose `completed_at` is already set leaves it unchanged (also via
`complete_task`), and it is set to `now` the first time status is set to
completed through `update_task` or `complete_task`. -/
theorem c4_completed_at_write_once (st : MState) (task_id : String) (t : Task)
    (u : UpdateArgs) (now : String) (h : dlookup st.tasks task_id = some t) :
    (t.completed_at ≠ none →
      (update_task st task_id u now).2.map Task.completed_at =
        some t.completed_at ∧
      (complete_task st task_id now).2.map Task.completed_at =
        some t.completed_at) ∧
    (t.completed_at = none →
      (complete_task st task_id now).2.map Task.completed_at =
        some (some now) ∧
      (u.status = some TaskStatus.completed →
        (update_task st task_id u now).2.map Task.completed_at =
          some (some now))) := by
  constructor
  · intro hc
    constructor <;> simp [update_task, complete_task, h, applyUpdate, hc]
  · intro hc
    constructor
    · simp [complete_task, update_task, h, applyUpdate, hc]
    · intro hs
      simp [update_task, h, applyUpdate, hc, hs]

/-- Witness for C4: completing an already-completed concrete task keeps its
original completion timestamp, and updating it (title change) does too. -/
theorem c4_completed_at_write_once_witness :
    (update_task completedStore "1" { title := some "New" } "T9").2.map
        Task.completed_at = some (some "T5") ∧
    (complete_task completedStore "1" "T9").2.map Task.completed_at =
      some (some "T5") :=
  (c4_completed_at_write_once completedStore "1" completedTask
    { title := some "New" } "T9" rfl).1 (by decide)

/-- C7: updating an absent id changes nothing and returns `none`; updating a
present id rewrites exactly that entry with `applyUpdate` and persists once,
leaves every other entry untouched, keeps every unsupplied field, sets every
supplied field, never touches `id`/`created_at`, always refreshes
`updated_at`, and touches `completed_at` exactly when status is being set
to completed while it is still unset. -/
theorem c7_update_frame (st : MState) (task_id : String) (u : UpdateArgs)
    (now : String) :
    (dlookup st.tasks task_id = none →
      update_task st task_id u now = (st, none)) ∧
    (∀ t, dlookup st.tasks task_id = some t →
      update_task st task_id u now =
        (save_tasks { st with tasks := dinsert st.tasks task_id (applyUpdate t u now) },
         some (applyUpdate t u now)) ∧
      (∀ id2, id2 ≠ task_id →
        dlookup (update_task st task_id u now).1.tasks id2 =
          dlookup st.tasks id2) ∧
      (u.title = none → (applyUpdate t u now).title = t.title) ∧
      (∀ x, u.title = some x → (applyUpdate t u now).title = x) ∧
      (u.description = none →
        (applyUpdate t u now).description = t.description) ∧
      (∀ x, u.description = some x →
        (applyUpdate t u now).description = some x) ∧
      (u.priority = none → (applyUpdate t u now).priority = t.priority) ∧
      (∀ x, u.priority = some x → (applyUpdate t u now).priority = x) ∧
      (u.status = none → (applyUpdate t u now).status = t.status) ∧
      (∀ x, u.status = some x → (applyUpdate t u now).status = x) ∧
      (u.tags = none → (applyUpdate t u now).tags = t.tags) ∧
      (∀ x, u.tags = some x → (applyUpdate t u now).tags = x) ∧
      (u.due_date = none → (applyUpdate t u now).due_date = t.due_date) ∧
      (∀ x, u.due_date = some x → (applyUpdate t u now).due_date = some x) ∧
      (applyUpdate t u now).id = t.id ∧
      (applyUpdate t u now).created_at = t.created_at ∧
      (applyUpdate t u now).updated_at = now ∧
      (applyUpdate t u now).completed_at =
        (if u.status = some TaskStatus.completed ∧ t.completed_at = none
         then some now else t.completed_at)) := by
  refine ⟨fun h => by simp [update_task, h], fun t ht => ?_⟩
  have hupd : update_task st task_id u now =
      (save_tasks { st with tasks := dinsert st.tasks task_id (applyUpdate t u now) },
       some (applyUpdate t u now)) := by
    simp [update_task, ht]
  refine ⟨hupd, fun id2 hid => ?_, fun hx => ?_, fun x hx => ?_, fun hx => ?_,
    fun x hx => ?_, fun hx => ?_, fun x hx => ?_, fun hx => ?_, fun x hx => ?_,
    fun hx => ?_, fun x hx => ?_, fun hx => ?_, fun x hx => ?_, rfl, rfl, rfl,
    rfl⟩
  · rw [hupd]
    simp [save_tasks, dlookup_dinsert_ne _ _ _ _ hid]
  all_goals simp [applyUpdate, hx]

/-- Witness for C7: an absent id leaves a concrete store untouched, and a
concrete title-only update sets the title while keeping the status. -/
theorem c7_update_frame_witness :
    update_task demoStore1 "9" {} "T9" = (demoStore1, none) ∧
    (applyUpdate demoTask1 { title := some "New" } "T9").title = "New" ∧
    (applyUpdate demoTask1 { title := some "New" } "T9").status =
      demoTask1.status :=
  ⟨(c7_update_frame demoStore1 "9" {} "T9").1 (by decide),
   ((c7_update_frame demoStore1 "1" { title := some "New" } "T9").2 demoTask1
      (by decide)).2.2.2.1 "New" rfl,
   ((c7_update_frame demoStore1 "1" { title := some "New" } "T9").2 demoTask1
      (by decide)).2.2.2.2.2.2.2.2.1 rfl⟩

theorem importLoop_lookup_notMem (data : List (String × TaskData)) :
    ∀ (acc : List (String × Task)) (id : String), id ∉ data.map Prod.fst →
      dlookup (importLoop acc data) id = dlookup acc id := by
  induction data with
  | nil => intro acc id h; rfl
  | cons p rest ih =>
      intro acc id h
      obtain ⟨k, td⟩ := p
      simp only [List.map_cons, List.mem_cons] at h
      push_neg at h
      simp only [importLoop]
      cases hf : Task.from_dict td
      · exact ih _ _ h.2
      · rw [ih _ _ h.2, dlookup_dinsert_ne _ _ _ _ h.1]

theorem importLoop_lookup_success (data : List (String × TaskData)) :
    ∀ (acc : List (String × Task)) (id : String) (td : TaskData) (t : Task),
      (id, td) ∈ data → (data.map Prod.fst).Nodup →
      Task.from_dict td = some t →
      dlookup (importLoop acc data) id = some t := by
  induction data with
  | nil => intro acc id td t hmem; simp at hmem
  | cons p rest ih =>
      intro acc id td t hmem hnd hdes
      obtain ⟨k, td0⟩ := p
      simp only [List.map_cons, List.nodup_cons] at hnd
      rcases List.mem_cons.mp hmem with heq | hmem2
      · rw [Prod.mk.injEq] at heq
        obtain ⟨rfl, rfl⟩ := heq
        simp only [importLoop, hdes]
        rw [importLoop_lookup_notMem rest _ _ hnd.1]
        exact dlookup_dinsert_self _ _ _
      · simp only [importLoop]
        cases hf : Task.from_dict td0
        · exact ih _ _ _ _ hmem2 hnd.2 hdes
        · exact ih _ _ _ _ hmem2 hnd.2 hdes

theorem importLoop_lookup_failure (data : List (String × TaskData)) :
    ∀ (acc : List (String × Task)) (id : String) (td : TaskData),
      (id, td) ∈ data → (data.map Prod.fst).Nodup →
      Task.from_dict td = none →
      dlookup (importLoop acc data) id = dlookup acc id := by
  induction data with
  | nil => intro acc id td hmem; simp at hmem
  | cons p rest ih =>
      intro acc id td hmem hnd hdes
      obtain ⟨k, td0⟩ := p
      simp only [List.map_cons, List.nodup_cons] at hnd
      rcases List.mem_cons.mp hmem with heq | hmem2
      · rw [Prod.mk.injEq] at heq
        obtain ⟨rfl, rfl⟩ := heq
        simp only [importLoop, hdes]
        exact importLoop_lookup_notMem rest _ _ hnd.1
      · have hid : id ∈ rest.map Prod.fst :=
          List.mem_map.mpr ⟨(id, td), hmem2, rfl⟩
        have hik : id ≠ k := fun e => hnd.1 (e ▸ hid)
        simp only [importLoop]
        cases hf : Task.from_dict td0
        · exact ih _ _ _ hmem2 hnd.2 hdes
        · rw [ih _ _ _ hmem2 hnd.2 hdes, dlookup_dinsert_ne _ _ _ _ hik]

/-- C1: importing a mapping with distinct ids replaces (wholesale) each
local entry whose id appears with a successfully deserialized task, skips
each entry that fails to deserialize (its local entry, if any, survives
unchanged and the rest of the batch is still processed), leaves ids not in
the mapping untouched, and persists exactly one snapshot at the end. -/
theorem c1_import_tasks_semantics (st : MState)
    (data : List (String × TaskData)) (hnd : (data.map Prod.fst).Nodup) :
    import_tasks st data =
      { tasks := importLoop st.tasks data,
        diskWrites := st.diskWrites ++ [importLoop st.tasks data] } ∧
    (∀ id td t, (id, td) ∈ data → Task.from_dict td = some t →
      dlookup (import_tasks st data).tasks id = some t) ∧
    (∀ id td, (id, td) ∈ data → Task.from_dict td = none →
      dlookup (import_tasks st data).tasks id = dlookup st.tasks id) ∧
    (∀ id, id ∉ data.map Prod.fst →
      dlookup (import_tasks st data).tasks id = dlookup st.tasks id) := by
  refine ⟨rfl, ?_, ?_, ?_⟩
  · intro id td t hmem hdes
    exact importLoop_lookup_success data st.tasks id td t hmem hnd hdes
  · intro id td hmem hdes
    exact importLoop_lookup_failure data st.tasks id td hmem hnd hdes
  · intro id h
    exact importLoop_lookup_notMem data st.tasks id h

/-- Witness for C1 on a concrete two-task store and a two-entry batch: the
good entry overwrites local task "2", the bad entry is skipped (id "9"
stays absent), and local task "1" is untouched. -/
theorem c1_import_tasks_semantics_witness :
    dlookup (import_tasks demoStore2 demoImportData).tasks "2" =
      some importedTask ∧
    dlookup (import_tasks demoStore2 demoImportData).tasks "9" =
      dlookup demoStore2.tasks "9" ∧
    dlookup (import_tasks demoStore2 demoImportData).tasks "1" =
      dlookup demoStore2.tasks "1" :=
  ⟨(c1_import_tasks_semantics demoStore2 demoImportData (by decide)).2.1
      "2" goodData importedTask (by decide) (by decide),
   (c1_import_tasks_semantics demoStore2 demoImportData (by decide)).2.2.1
      "9" badData (by decide) (by decide),
   (c1_import_tasks_semantics demoStore2 demoImportData (by decide)).2.2.2
      "1" (by decide)⟩

end TaskApp
